import Mathlib

/-!
Verification development for the zeppelin jsonrpc-remote plugin
(src/server.h, src/server.cpp, src/plugin.cpp).

Shallow embedding notes:
- jsoncpp `Json::Value` is modelled by `JVal` (null, bool, int, string,
  array, object).  The uint and real kinds never occur in this plugin
  and are omitted.  Objects are association lists in insertion order;
  key order is never observed by any property below.
- The external collaborators (library storage, playback controller,
  logger) are modelled abstractly: read calls are fields of `Storage`
  or of `ServerState`, mutating calls are recorded in an operation log
  `ServerState.ops`, and LOG lines go to `ServerState.logs`.
- Handler exceptions (`throw InvalidMethodCall()` and anything else the
  `catch (...)` in `Server::processRequest` can swallow) are modelled
  with `Except HandlerErr`.  Every throw in the plugin happens before
  the handler performs any collaborator mutation, so the error case
  carries no state.
- The inbound byte payload is modelled as the outcome of the jsoncpp
  parse step, `Option JVal`: `none` means the bytes did not decode and
  the `root` document keeps its initial null value.
- `std::sort` with `FilenameComparator` / `TrackIndexComparator` (a
  strict-weak `<`) is modelled by `List.mergeSort` with the matching
  non-strict comparison; any conforming `std::sort` produces some
  nondecreasing permutation, and `mergeSort` is one such.
-/

/-- Kinds of jsoncpp values used by this plugin (uint and real omitted,
they never occur here). Mirrors `Json::ValueType`. -/
inductive JType where
  | nullValue
  | intValue
  | stringValue
  | booleanValue
  | arrayValue
  | objectValue
  deriving DecidableEq, Repr

/-- Model of `Json::Value`. -/
inductive JVal where
  | null : JVal
  | bool : Bool → JVal
  | int : Int → JVal
  | str : String → JVal
  | arr : List JVal → JVal
  | obj : List (String × JVal) → JVal

/-- Association-list lookup for object members. -/
def findKey : List (String × JVal) → String → Option JVal
  | [], _ => none
  | (k0, v0) :: rest, k => if k0 = k then some v0 else findKey rest k

/-- `Json::Value::type()`. -/
def JVal.jtype : JVal → JType
  | .null => JType.nullValue
  | .bool _ => JType.booleanValue
  | .int _ => JType.intValue
  | .str _ => JType.stringValue
  | .arr _ => JType.arrayValue
  | .obj _ => JType.objectValue

/-- `Json::Value::isMember`.  jsoncpp returns false on a null value; on
the value kinds this plugin never feeds to it we also return false. -/
def JVal.isMember : JVal → String → Bool
  | .obj kvs, k => (findKey kvs k).isSome
  | _, _ => false

/-- Constant `operator[](key)`: the member value, or null when absent
(or when the receiver is not an object). -/
def JVal.get : JVal → String → JVal
  | .obj kvs, k =>
      match findKey kvs k with
      | some v => v
      | none => JVal.null
  | _, _ => JVal.null

/-- `Json::Value::isInt` (intValue only; the uint and real kinds are
not modelled). -/
def JVal.isInt : JVal → Bool
  | .int _ => true
  | _ => false

/-- `Json::Value::asInt`.  Call sites in the plugin are guarded by
`requireType` or `isInt`; the remaining kinds default to 0 as jsoncpp
does for null. -/
def JVal.asInt : JVal → Int
  | .int n => n
  | .bool b => if b then 1 else 0
  | _ => 0

/-- `Json::Value::asString`.  Call sites in the plugin pass string
values; null yields the empty string as in jsoncpp. -/
def JVal.asString : JVal → String
  | .str s => s
  | .bool b => if b then ("true") else ("false")
  | _ => ("")

/-- `Json::Value::append` on an array (or on null, which jsoncpp turns
into a one-element array). -/
def JVal.append : JVal → JVal → JVal
  | .arr xs, v => .arr (xs ++ [v])
  | _, v => .arr [v]

/-- Elements of an array value. -/
def JVal.arrItems : JVal → List JVal
  | .arr xs => xs
  | _ => []

/-- `zeppelin::library::File` (fields read or written by this plugin). -/
structure LibFile where
  m_id : Int
  m_path : String
  m_name : String
  m_directoryId : Int
  m_artistId : Int
  m_albumId : Int
  m_length : Int
  m_artist : String
  m_album : String
  m_title : String
  m_year : Int
  m_trackIndex : Int
  m_codec : String
  m_sampleRate : Int
  m_sampleSize : Int
  deriving DecidableEq, Repr

/-- `zeppelin::library::File file(id)`: only the id is set. -/
def mkFile (id : Int) : LibFile :=
  { m_id := id, m_path := (""), m_name := (""), m_directoryId := 0,
    m_artistId := 0, m_albumId := 0, m_length := 0, m_artist := (""),
    m_album := (""), m_title := (""), m_year := 0, m_trackIndex := 0,
    m_codec := (""), m_sampleRate := 0, m_sampleSize := 0 }

/-- `zeppelin::library::Artist`. -/
structure LibArtist where
  m_id : Int
  m_name : String
  m_albums : Int
  deriving DecidableEq, Repr

/-- `zeppelin::library::Album`. -/
structure LibAlbum where
  m_id : Int
  m_name : String
  m_artistId : Int
  m_songs : Int
  deriving DecidableEq, Repr

/-- `zeppelin::library::Directory`. -/
structure LibDirectory where
  m_id : Int
  m_name : String
  m_parentId : Int
  deriving DecidableEq, Repr

/-- One entry of a stored playlist definition. -/
structure PlaylistItem where
  m_id : Int
  m_type : String
  m_itemId : Int
  deriving DecidableEq, Repr

/-- `zeppelin::library::Playlist`. -/
structure LibPlaylist where
  m_id : Int
  m_name : String
  m_items : List PlaylistItem
  deriving DecidableEq, Repr

/-- `zeppelin::library::Storage::Statistics`. -/
structure Statistics where
  m_numOfArtists : Int
  m_numOfAlbums : Int
  m_numOfFiles : Int
  m_sumOfSongLengths : Int
  m_sumOfFileSizes : Int
  deriving DecidableEq, Repr

/-- `zeppelin::player::QueueItem`: the recursive playback-queue tree.
File is a leaf; Directory and Album carry their library record and
their child items; Playlist carries its id and child items. -/
inductive QueueItem where
  | file : LibFile → QueueItem
  | directory : LibDirectory → List QueueItem → QueueItem
  | album : LibAlbum → List QueueItem → QueueItem
  | playlist : Int → List QueueItem → QueueItem

/-- The read interface of the library-storage collaborator, abstract:
an arbitrary snapshot of what each query returns. -/
structure Storage where
  getStatistics : Statistics
  getArtists : List Int → List LibArtist
  getAlbums : List Int → List LibAlbum
  getAlbumIdsByArtist : Int → List Int
  getFiles : List Int → List LibFile
  getFileIdsOfAlbum : Int → List Int
  getDirectories : List Int → List LibDirectory
  listSubdirectories : Int → List LibDirectory
  getFileIdsOfDirectory : Int → List Int
  getPlaylists : List Int → List LibPlaylist
  createPlaylist : String → Int
  addPlaylistItem : Int → String → Int → Int

/-- Mutating calls the plugin issues to its collaborators, recorded as
an operation log. -/
inductive Op where
  | scan : Op
  | updateFileMetadata : LibFile → Op
  | createPlaylist : String → Op
  | deletePlaylist : Int → Op
  | addPlaylistItem : Int → String → Int → Op
  | deletePlaylistItem : Int → Op
  | queue : QueueItem → Op
  | remove : List Int → Op
  | removeAll : Op
  | play : Op
  | pause : Op
  | stop : Op
  | seek : Int → Op
  | prev : Op
  | next : Op
  | goTo : List Int → Op
  | setVolume : Int → Op

/-- `zeppelin::player::Controller::Status`. -/
structure PlayerStatus where
  m_file : Option LibFile
  m_state : Int
  m_position : Int
  m_volume : Int
  m_index : List Int

/-- The world one request executes against: the storage snapshot, the
controller read views, the collaborator operation log and the LOG
lines emitted so far. -/
structure ServerState where
  storage : Storage
  ctrlQueue : List QueueItem
  ctrlStatus : PlayerStatus
  ctrlVolume : Int
  ops : List Op
  logs : List String

/-- Exceptions a handler can raise: `InvalidMethodCall` from server.h,
or any other fault from a collaborator — `catch (...)` in
`Server::processRequest` swallows both alike. -/
inductive HandlerErr where
  | invalidMethodCall : HandlerErr
  | collaboratorFault : String → HandlerErr

/-- Signature of one registered RPC method: params document in, new
state and result document out, or an exception. -/
def Handler : Type :=
  JVal → ServerState → Except HandlerErr (ServerState × JVal)

/-- `Server::requireType` (server.cpp lines 845-849). -/
def requireType (request : JVal) (key : String) (t : JType) :
    Except HandlerErr Unit :=
  if !request.isMember key || (request.get key).jtype != t then
    .error .invalidMethodCall
  else
    .ok ()

/-- The element-wise id-collection loop shared verbatim by the array
handlers (for each element: throw unless isInt, else push asInt). -/
def collectIds : List JVal → Except HandlerErr (List Int)
  | [] => .ok []
  | v :: rest =>
      if v.isInt then
        match collectIds rest with
        | .error e => .error e
        | .ok ids => .ok (v.asInt :: ids)
      else
        .error .invalidMethodCall

/-- Files queued inside a Directory, Album or Playlist entry become
File queue items (as `zeppelin::player` wraps them). -/
def filesToItems (files : List LibFile) : List QueueItem :=
  files.map QueueItem.file

/-- `std::sort(files, FilenameComparator())`: nondecreasing by name. -/
def sortByFilename (files : List LibFile) : List LibFile :=
  files.mergeSort (fun f1 f2 => decide (f1.m_name ≤ f2.m_name))

/-- `std::sort(files, TrackIndexComparator())`: nondecreasing by track
index. -/
def sortByTrackIndex (files : List LibFile) : List LibFile :=
  files.mergeSort (fun f1 f2 => decide (f1.m_trackIndex ≤ f2.m_trackIndex))

mutual
/-- `serializeQueueItem` (server.cpp lines 648-710): encode one queue
item and append it to the parent array.  The node object is built
(type, id, empty child array) and the children are then encoded, in
order, into its `files` / `items` array; finally the node is appended
to `parent`. -/
def serializeQueueItem : JVal → QueueItem → JVal
  | parent, .playlist plId cs =>
      parent.append (.obj [(("type"), .str ("playlist")), (("id"), .int plId),
        (("items"), serializeItems (.arr []) cs)])
  | parent, .directory d cs =>
      parent.append (.obj [(("type"), .str ("directory")), (("id"), .int d.m_id),
        (("files"), serializeItems (.arr []) cs)])
  | parent, .album a cs =>
      parent.append (.obj [(("type"), .str ("album")), (("id"), .int a.m_id),
        (("files"), serializeItems (.arr []) cs)])
  | parent, .file f =>
      parent.append (.obj [(("type"), .str ("file")), (("id"), .int f.m_id)])

/-- The child loop of `serializeQueueItem`: encode each item into the
accumulating array, in order. -/
def serializeItems : JVal → List QueueItem → JVal
  | acc, [] => acc
  | acc, c :: cs => serializeItems (serializeQueueItem acc c) cs
end

/-- The per-entry resolution loop of `Server::playerQueuePlaylist`
(server.cpp lines 597-642): each stored entry of type file, directory
or album is looked up and added to the playlist being built (entries
whose lookups come back empty are silently dropped); an entry of any
other type is logged and skipped.  Returns the children added and the
LOG lines emitted, in order. -/
def resolvePlaylistItems (s : Storage) :
    List PlaylistItem → List QueueItem × List String
  | [] => ([], [])
  | item :: rest =>
      let head : List QueueItem × List String :=
        if item.m_type = ("file") then
          match s.getFiles [item.m_itemId] with
          | [] => ([], [])
          | f :: _ => ([QueueItem.file f], [])
        else if item.m_type = ("directory") then
          match s.getDirectories [item.m_itemId] with
          | [] => ([], [])
          | d :: _ =>
              let fileIds := s.getFileIdsOfDirectory item.m_itemId
              let files := sortByFilename (s.getFiles fileIds)
              ([QueueItem.directory d
                  (if fileIds.isEmpty then [] else filesToItems files)], [])
        else if item.m_type = ("album") then
          match s.getAlbums [item.m_itemId] with
          | [] => ([], [])
          | a :: _ =>
              let fileIds := s.getFileIdsOfAlbum item.m_itemId
              let files := sortByTrackIndex (s.getFiles fileIds)
              ([QueueItem.album a
                  (if fileIds.isEmpty then [] else filesToItems files)], [])
        else
          ([], [("jsonrpc-remote: invalid playlist item: ") ++ item.m_type])
      let tail := resolvePlaylistItems s rest
      (head.1 ++ tail.1, head.2 ++ tail.2)

/-- JSON rendering of one artist (Server::libraryGetArtists). -/
def artistToJson (a : LibArtist) : JVal :=
  .obj [(("id"), .int a.m_id), (("name"), .str a.m_name),
        (("albums"), .int a.m_albums)]

/-- JSON rendering of one album (Server::libraryGetAlbums). -/
def albumToJson (a : LibAlbum) : JVal :=
  .obj [(("id"), .int a.m_id), (("name"), .str a.m_name),
        (("artist_id"), .int a.m_artistId), (("songs"), .int a.m_songs)]

/-- JSON rendering of one file (Server::libraryGetFiles). -/
def fileToJson (f : LibFile) : JVal :=
  .obj [(("id"), .int f.m_id), (("path"), .str f.m_path),
        (("name"), .str f.m_name), (("directory_id"), .int f.m_directoryId),
        (("artist_id"), .int f.m_artistId), (("album_id"), .int f.m_albumId),
        (("length"), .int f.m_length), (("title"), .str f.m_title),
        (("year"), .int f.m_year), (("track_index"), .int f.m_trackIndex),
        (("codec"), .str f.m_codec), (("sample_rate"), .int f.m_sampleRate),
        (("sample_size"), .int f.m_sampleSize)]

/-- JSON rendering of one directory (Server::libraryGetDirectories). -/
def directoryToJson (d : LibDirectory) : JVal :=
  .obj [(("id"), .int d.m_id), (("name"), .str d.m_name),
        (("parent_id"), .int d.m_parentId)]

/-- JSON rendering of one stored playlist (Server::libraryGetPlaylists). -/
def playlistToJson (p : LibPlaylist) : JVal :=
  .obj [(("id"), .int p.m_id), (("name"), .str p.m_name),
        (("items"), .arr (p.m_items.map (fun pi0 =>
          .obj [(("id"), .int pi0.m_id), (("type"), .str pi0.m_type),
                (("item_id"), .int pi0.m_itemId)])))]

/-- Server::libraryScan. -/
def libraryScan : Handler := fun _ st =>
  .ok ({ st with ops := st.ops ++ [Op.scan] }, JVal.null)

/-- Server::libraryGetStatistics (the two sums go through
boost::lexical_cast to a decimal string). -/
def libraryGetStatistics : Handler := fun _ st =>
  let stat := st.storage.getStatistics
  .ok (st, .obj [(("num_of_artists"), .int stat.m_numOfArtists),
    (("num_of_albums"), .int stat.m_numOfAlbums),
    (("num_of_files"), .int stat.m_numOfFiles),
    (("sum_of_song_lengths"), .str (toString stat.m_sumOfSongLengths)),
    (("sum_of_file_sizes"), .str (toString stat.m_sumOfFileSizes))])

/-- Server::libraryGetArtists. -/
def libraryGetArtists : Handler := fun request st =>
  match requireType request ("id") JType.arrayValue with
  | .error e => .error e
  | .ok _ =>
      match collectIds (request.get ("id")).arrItems with
      | .error e => .error e
      | .ok ids => .ok (st, .arr ((st.storage.getArtists ids).map artistToJson))

/-- Server::libraryGetAlbums. -/
def libraryGetAlbums : Handler := fun request st =>
  match requireType request ("id") JType.arrayValue with
  | .error e => .error e
  | .ok _ =>
      match collectIds (request.get ("id")).arrItems with
      | .error e => .error e
      | .ok ids => .ok (st, .arr ((st.storage.getAlbums ids).map albumToJson))

/-- Server::libraryGetAlbumIdsByArtist. -/
def libraryGetAlbumIdsByArtist : Handler := fun request st =>
  match requireType request ("artist_id") JType.intValue with
  | .error e => .error e
  | .ok _ =>
      let ids := st.storage.getAlbumIdsByArtist (request.get ("artist_id")).asInt
      .ok (st, .arr (ids.map JVal.int))

/-- Server::libraryGetFiles. -/
def libraryGetFiles : Handler := fun request st =>
  match requireType request ("id") JType.arrayValue with
  | .error e => .error e
  | .ok _ =>
      match collectIds (request.get ("id")).arrItems with
      | .error e => .error e
      | .ok ids => .ok (st, .arr ((st.storage.getFiles ids).map fileToJson))

/-- Server::libraryGetFileIdsOfAlbum. -/
def libraryGetFileIdsOfAlbum : Handler := fun request st =>
  match requireType request ("album_id") JType.intValue with
  | .error e => .error e
  | .ok _ =>
      let ids := st.storage.getFileIdsOfAlbum (request.get ("album_id")).asInt
      .ok (st, .arr (ids.map JVal.int))

/-- Server::libraryGetDirectories. -/
def libraryGetDirectories : Handler := fun request st =>
  match requireType request ("id") JType.arrayValue with
  | .error e => .error e
  | .ok _ =>
      match collectIds (request.get ("id")).arrItems with
      | .error e => .error e
      | .ok ids =>
          .ok (st, .arr ((st.storage.getDirectories ids).map directoryToJson))

/-- Server::libraryListDirectory. -/
def libraryListDirectory : Handler := fun request st =>
  match requireType request ("directory_id") JType.intValue with
  | .error e => .error e
  | .ok _ =>
      let directoryId := (request.get ("directory_id")).asInt
      let dirs := st.storage.listSubdirectories directoryId
      let fileIds := st.storage.getFileIdsOfDirectory directoryId
      .ok (st, .obj [(("dirs"), .arr (dirs.map (fun d =>
          .obj [(("type"), .str ("dir")), (("id"), .int d.m_id),
                (("name"), .str d.m_name)]))),
        (("files"), .arr (fileIds.map JVal.int))])

/-- Server::libraryUpdateMetadata: builds a File record carrying the
new tags and hands it to storage. -/
def libraryUpdateMetadata : Handler := fun request st =>
  match requireType request ("id") JType.intValue with
  | .error e => .error e
  | .ok _ =>
      let file := { mkFile (request.get ("id")).asInt with
        m_artist := (request.get ("artist")).asString,
        m_album := (request.get ("album")).asString,
        m_title := (request.get ("title")).asString,
        m_year := (request.get ("year")).asInt,
        m_trackIndex := (request.get ("track_index")).asInt }
      .ok ({ st with ops := st.ops ++ [Op.updateFileMetadata file] }, JVal.null)

/-- Server::libraryCreatePlaylist. -/
def libraryCreatePlaylist : Handler := fun request st =>
  match requireType request ("name") JType.stringValue with
  | .error e => .error e
  | .ok _ =>
      let name := (request.get ("name")).asString
      .ok ({ st with ops := st.ops ++ [Op.createPlaylist name] },
           .int (st.storage.createPlaylist name))

/-- Server::libraryDeletePlaylist. -/
def libraryDeletePlaylist : Handler := fun request st =>
  match requireType request ("id") JType.intValue with
  | .error e => .error e
  | .ok _ =>
      .ok ({ st with ops := st.ops ++ [Op.deletePlaylist (request.get ("id")).asInt] },
           JVal.null)

/-- Server::libraryAddPlaylistItem. -/
def libraryAddPlaylistItem : Handler := fun request st =>
  match requireType request ("id") JType.intValue with
  | .error e => .error e
  | .ok _ =>
  match requireType request ("type") JType.stringValue with
  | .error e => .error e
  | .ok _ =>
  match requireType request ("item_id") JType.intValue with
  | .error e => .error e
  | .ok _ =>
      let plId := (request.get ("id")).asInt
      let ty := (request.get ("type")).asString
      let itemId := (request.get ("item_id")).asInt
      .ok ({ st with ops := st.ops ++ [Op.addPlaylistItem plId ty itemId] },
           .int (st.storage.addPlaylistItem plId ty itemId))

/-- Server::libraryDeletePlaylistItem. -/
def libraryDeletePlaylistItem : Handler := fun request st =>
  match requireType request ("id") JType.intValue with
  | .error e => .error e
  | .ok _ =>
      .ok ({ st with
             ops := st.ops ++ [Op.deletePlaylistItem (request.get ("id")).asInt] },
           JVal.null)

/-- Server::libraryGetPlaylists. -/
def libraryGetPlaylists : Handler := fun request st =>
  match requireType request ("id") JType.arrayValue with
  | .error e => .error e
  | .ok _ =>
      match collectIds (request.get ("id")).arrItems with
      | .error e => .error e
      | .ok ids =>
          .ok (st, .arr ((st.storage.getPlaylists ids).map playlistToJson))

/-- Server::playerQueueFile (server.cpp lines 527-537). -/
def playerQueueFile : Handler := fun request st =>
  match requireType request ("id") JType.intValue with
  | .error e => .error e
  | .ok _ =>
      match st.storage.getFiles [(request.get ("id")).asInt] with
      | [] => .error .invalidMethodCall
      | f :: _ =>
          .ok ({ st with ops := st.ops ++ [Op.queue (QueueItem.file f)] },
               JVal.null)

/-- Server::playerQueueDirectory (server.cpp lines 540-560): the files
of the directory are sorted by name; an empty id list queues an empty
child list. -/
def playerQueueDirectory : Handler := fun request st =>
  match requireType request ("id") JType.intValue with
  | .error e => .error e
  | .ok _ =>
      let directoryId := (request.get ("id")).asInt
      match st.storage.getDirectories [directoryId] with
      | [] => .error .invalidMethodCall
      | d :: _ =>
          let fileIds := st.storage.getFileIdsOfDirectory directoryId
          let files := sortByFilename (st.storage.getFiles fileIds)
          .ok ({ st with ops := st.ops ++ [Op.queue (QueueItem.directory d
                  (if fileIds.isEmpty then [] else filesToItems files))] },
               JVal.null)

/-- Server::playerQueueAlbum (server.cpp lines 563-583): the files of
the album are sorted by track index; an empty id list queues an empty
child list. -/
def playerQueueAlbum : Handler := fun request st =>
  match requireType request ("id") JType.intValue with
  | .error e => .error e
  | .ok _ =>
      let albumId := (request.get ("id")).asInt
      match st.storage.getAlbums [albumId] with
      | [] => .error .invalidMethodCall
      | a :: _ =>
          let fileIds := st.storage.getFileIdsOfAlbum albumId
          let files := sortByTrackIndex (st.storage.getFiles fileIds)
          .ok ({ st with ops := st.ops ++ [Op.queue (QueueItem.album a
                  (if fileIds.isEmpty then [] else filesToItems files))] },
               JVal.null)

/-- Server::playerQueuePlaylist (server.cpp lines 586-645). -/
def playerQueuePlaylist : Handler := fun request st =>
  match requireType request ("id") JType.intValue with
  | .error e => .error e
  | .ok _ =>
      match st.storage.getPlaylists [(request.get ("id")).asInt] with
      | [] => .error .invalidMethodCall
      | pl :: _ =>
          let resolved := resolvePlaylistItems st.storage pl.m_items
          .ok ({ st with
                 ops := st.ops ++ [Op.queue (QueueItem.playlist pl.m_id resolved.1)],
                 logs := st.logs ++ resolved.2 },
               JVal.null)

/-- Server::playerQueueGet (server.cpp lines 713-721). -/
def playerQueueGet : Handler := fun _ st =>
  .ok (st, serializeItems (.arr []) st.ctrlQueue)

/-- Server::playerQueueRemove (server.cpp lines 724-744). -/
def playerQueueRemove : Handler := fun request st =>
  match requireType request ("index") JType.arrayValue with
  | .error e => .error e
  | .ok _ =>
      match collectIds (request.get ("index")).arrItems with
      | .error e => .error e
      | .ok i =>
          .ok ({ st with ops := st.ops ++ [Op.remove i] }, JVal.null)

/-- Server::playerQueueRemoveAll. -/
def playerQueueRemoveAll : Handler := fun _ st =>
  .ok ({ st with ops := st.ops ++ [Op.removeAll] }, JVal.null)

/-- Server::playerStatus. -/
def playerStatus : Handler := fun _ st =>
  let s := st.ctrlStatus
  .ok (st, .obj [(("current"),
      match s.m_file with
      | some f => JVal.int f.m_id
      | none => JVal.null),
    (("state"), .int s.m_state), (("position"), .int s.m_position),
    (("volume"), .int s.m_volume),
    (("index"), .arr (s.m_index.map JVal.int))])

/-- Server::playerPlay. -/
def playerPlay : Handler := fun _ st =>
  .ok ({ st with ops := st.ops ++ [Op.play] }, JVal.null)

/-- Server::playerPause. -/
def playerPause : Handler := fun _ st =>
  .ok ({ st with ops := st.ops ++ [Op.pause] }, JVal.null)

/-- Server::playerStop. -/
def playerStop : Handler := fun _ st =>
  .ok ({ st with ops := st.ops ++ [Op.stop] }, JVal.null)

/-- Server::playerSeek. -/
def playerSeek : Handler := fun request st =>
  match requireType request ("seconds") JType.intValue with
  | .error e => .error e
  | .ok _ =>
      .ok ({ st with ops := st.ops ++ [Op.seek (request.get ("seconds")).asInt] },
           JVal.null)

/-- Server::playerPrev. -/
def playerPrev : Handler := fun _ st =>
  .ok ({ st with ops := st.ops ++ [Op.prev] }, JVal.null)

/-- Server::playerNext. -/
def playerNext : Handler := fun _ st =>
  .ok ({ st with ops := st.ops ++ [Op.next] }, JVal.null)

/-- Server::playerGoto (same element-wise index validation as
playerQueueRemove). -/
def playerGoto : Handler := fun request st =>
  match requireType request ("index") JType.arrayValue with
  | .error e => .error e
  | .ok _ =>
      match collectIds (request.get ("index")).arrItems with
      | .error e => .error e
      | .ok i =>
          .ok ({ st with ops := st.ops ++ [Op.goTo i] }, JVal.null)

/-- Server::playerGetVolume. -/
def playerGetVolume : Handler := fun _ st =>
  .ok (st, .int st.ctrlVolume)

/-- Server::playerSetVolume. -/
def playerSetVolume : Handler := fun request st =>
  match requireType request ("level") JType.intValue with
  | .error e => .error e
  | .ok _ =>
      .ok ({ st with ops := st.ops ++ [Op.setVolume (request.get ("level")).asInt] },
           JVal.null)

/-- The method registry built in the Server constructor (server.cpp
lines 39-90): name to handler, populated once, read-only afterwards. -/
def rpcLookup : String → Option Handler
  | "library_scan" => some libraryScan
  | "library_get_statistics" => some libraryGetStatistics
  | "library_get_artists" => some libraryGetArtists
  | "library_get_album_ids_by_artist" => some libraryGetAlbumIdsByArtist
  | "library_get_albums" => some libraryGetAlbums
  | "library_get_files" => some libraryGetFiles
  | "library_get_file_ids_of_album" => some libraryGetFileIdsOfAlbum
  | "library_get_directories" => some libraryGetDirectories
  | "library_list_directory" => some libraryListDirectory
  | "library_update_metadata" => some libraryUpdateMetadata
  | "library_create_playlist" => some libraryCreatePlaylist
  | "library_delete_playlist" => some libraryDeletePlaylist
  | "library_add_playlist_item" => some libraryAddPlaylistItem
  | "library_delete_playlist_item" => some libraryDeletePlaylistItem
  | "library_get_playlists" => some libraryGetPlaylists
  | "player_queue_file" => some playerQueueFile
  | "player_queue_directory" => some playerQueueDirectory
  | "player_queue_album" => some playerQueueAlbum
  | "player_queue_playlist" => some playerQueuePlaylist
  | "player_queue_get" => some playerQueueGet
  | "player_queue_remove" => some playerQueueRemove
  | "player_queue_remove_all" => some playerQueueRemoveAll
  | "player_status" => some playerStatus
  | "player_play" => some playerPlay
  | "player_pause" => some playerPause
  | "player_stop" => some playerStop
  | "player_seek" => some playerSeek
  | "player_prev" => some playerPrev
  | "player_next" => some playerNext
  | "player_goto" => some playerGoto
  | "player_get_volume" => some playerGetVolume
  | "player_set_volume" => some playerSetVolume
  | _ => none

/-- `createJsonErrorReply` (server.cpp lines 127-142): failure envelope
with the id echoed from the request document when present, else null. -/
def createJsonErrorReply (request : JVal) (reason : String) : JVal :=
  .obj [(("jsonrpc"), .str ("2.0")), (("error"), .str reason),
        (("id"), if request.isMember ("id") then request.get ("id") else JVal.null)]

/-- The success envelope built at server.cpp lines 178-181. -/
def successReply (root : JVal) (result : JVal) : JVal :=
  .obj [(("jsonrpc"), .str ("2.0")), (("id"), root.get ("id")),
        (("result"), result)]

/-- Params extraction (server.cpp lines 156-159): `Json::Value params;`
is default-constructed to null and only overwritten when the request
document has a `params` member. -/
def extractParams (root : JVal) : JVal :=
  if root.isMember ("params") then root.get ("params") else JVal.null

/-- The try/catch wrapping of the handler call (server.cpp lines
169-186): any handler failure becomes the generic failure envelope,
success is wrapped with the echoed id and the handler result. -/
def finishCall (st : ServerState) (root : JVal) :
    Except HandlerErr (ServerState × JVal) → ServerState × JVal
  | .error _ => (st, createJsonErrorReply root ("invalid method call"))
  | .ok (st2, result) => (st2, successReply root result)

/-- `Server::processRequest` (server.cpp lines 145-187) over the parse
outcome of the inbound payload.  Returns the new world state and the
response document (the HTTP 200 wrapper and the content-type header
are transport concerns left out of the model). -/
def processRequest (st : ServerState) (parsed : Option JVal) :
    ServerState × JVal :=
  match parsed with
  | none => (st, createJsonErrorReply JVal.null ("invalid request"))
  | some root =>
      if root.isMember ("method") && root.isMember ("id") then
        let params := extractParams root
        match rpcLookup (root.get ("method")).asString with
        | none => (st, createJsonErrorReply root ("invalid method"))
        | some h => finishCall st root (h params st)
      else
        (st, createJsonErrorReply root ("method/id not found"))

mutual
/-- Spec-side encoder, following the words of spec section 4.4: each
variant is encoded as its tag plus id, with the children encoded in
original order into a files / items array.  Clearly distinct from the
source-side `serializeQueueItem`; claim C1 compares the two. -/
def specEncodeQueueItem : QueueItem → JVal
  | .file f => .obj [(("type"), .str ("file")), (("id"), .int f.m_id)]
  | .directory d cs =>
      .obj [(("type"), .str ("directory")), (("id"), .int d.m_id),
            (("files"), .arr (specEncodeItems cs))]
  | .album a cs =>
      .obj [(("type"), .str ("album")), (("id"), .int a.m_id),
            (("files"), .arr (specEncodeItems cs))]
  | .playlist plId cs =>
      .obj [(("type"), .str ("playlist")), (("id"), .int plId),
            (("items"), .arr (specEncodeItems cs))]

/-- Spec-side encoding of a child sequence, in original order. -/
def specEncodeItems : List QueueItem → List JVal
  | [] => []
  | c :: cs => specEncodeQueueItem c :: specEncodeItems cs
end

/-- The files `playerQueueAlbum` hands to the controller for a given
album id: empty when the album has no file ids, otherwise the fetched
files sorted by track index. -/
def queuedAlbumFiles (s : Storage) (albumId : Int) : List LibFile :=
  if (s.getFileIdsOfAlbum albumId).isEmpty then []
  else sortByTrackIndex (s.getFiles (s.getFileIdsOfAlbum albumId))

/-- A storage snapshot with nothing in it (used by witnesses). -/
def emptyStorage : Storage where
  getStatistics := ⟨0, 0, 0, 0, 0⟩
  getArtists := fun _ => []
  getAlbums := fun _ => []
  getAlbumIdsByArtist := fun _ => []
  getFiles := fun _ => []
  getFileIdsOfAlbum := fun _ => []
  getDirectories := fun _ => []
  listSubdirectories := fun _ => []
  getFileIdsOfDirectory := fun _ => []
  getPlaylists := fun _ => []
  createPlaylist := fun _ => 0
  addPlaylistItem := fun _ _ _ => 0

/-- A fresh world over a given storage snapshot: empty queue, empty
operation log, no LOG lines. -/
def initialState (s : Storage) : ServerState :=
  { storage := s, ctrlQueue := [], ctrlStatus := ⟨none, 0, 0, 0, []⟩,
    ctrlVolume := 0, ops := [], logs := [] }

/-- Witness world with empty storage. -/
def exampleState : ServerState := initialState emptyStorage

/-- Witness tree for claim C1: a playlist holding one directory holding
two files, ids 1 and 2 in that order. -/
def exQueueTree : QueueItem :=
  .playlist 20 [.directory ⟨10, ("d"), 0⟩ [.file (mkFile 1), .file (mkFile 2)]]

/-- Witness request for claim C2: player_seek without params. -/
def c2Root : JVal :=
  .obj [(("method"), .str ("player_seek")), (("id"), .int 3)]

/-- Witness request for claim C3: an object-typed id. -/
def c3Root : JVal :=
  .obj [(("method"), .str ("player_play")),
        (("id"), .obj [(("session"), .int 1)])]

/-- Witness request for claim C4: the spec scenario, an index array
with a non-integer element. -/
def c4Root : JVal :=
  .obj [(("method"), .str ("player_queue_remove")), (("id"), .int 1),
        (("params"), .obj [(("index"), .arr [.int 0, .str ("a")])])]

/-- Witness request for claim C6: id present, method missing. -/
def c6Root : JVal := .obj [(("id"), .int 5)]

/-- Witness request for claims C7 and C10: method and id, no params. -/
def c7Root : JVal :=
  .obj [(("method"), .str ("player_play")), (("id"), .int 1)]

/-- Witness request for claim C10: player_stop. -/
def c10Root : JVal :=
  .obj [(("method"), .str ("player_stop")), (("id"), .int 0)]

/-- Witness playlist for claim C8: a file entry, an entry of unknown
type, then another file entry. -/
def c8Playlist : LibPlaylist :=
  { m_id := 5, m_name := ("mix"),
    m_items := [⟨1, ("file"), 1⟩, ⟨2, ("stream"), 9⟩, ⟨3, ("file"), 2⟩] }

/-- Witness storage for claim C8. -/
def c8Storage : Storage :=
  { emptyStorage with
    getPlaylists := fun ids => if ids = [5] then [c8Playlist] else [],
    getFiles := fun ids =>
      if ids = [1] then [mkFile 1]
      else if ids = [2] then [mkFile 2]
      else [] }

/-- Witness world for claim C8. -/
def c8State : ServerState := initialState c8Storage

/-- Witness request for claim C8. -/
def c8Root : JVal :=
  .obj [(("method"), .str ("player_queue_playlist")), (("id"), .int 4),
        (("params"), .obj [(("id"), .int 5)])]

/-- Witness file with the later track index (claim C9). -/
def c9FileA : LibFile := { mkFile 1 with m_trackIndex := 5 }

/-- Witness file with the earlier track index (claim C9). -/
def c9FileB : LibFile := { mkFile 2 with m_trackIndex := 2 }

/-- Witness album (claim C9). -/
def c9Album : LibAlbum :=
  { m_id := 7, m_name := ("alb"), m_artistId := 1, m_songs := 2 }

/-- Witness storage for claim C9: the files come back from storage out
of track order. -/
def c9Storage : Storage :=
  { emptyStorage with
    getAlbums := fun ids => if ids = [7] then [c9Album] else [],
    getFileIdsOfAlbum := fun i => if i = 7 then [1, 2] else [],
    getFiles := fun ids => if ids = [1, 2] then [c9FileA, c9FileB] else [] }

/-- Witness world for claim C9. -/
def c9State : ServerState := initialState c9Storage

/-- Witness request for claim C9. -/
def c9Root : JVal :=
  .obj [(("method"), .str ("player_queue_album")), (("id"), .int 2),
        (("params"), .obj [(("id"), .int 7)])]

mutual
/-- The source codec appends exactly the spec-side encoding of the item
to the parent array. -/
theorem serializeQueueItem_eq (item : QueueItem) (xs : List JVal) :
    serializeQueueItem (JVal.arr xs) item =
      JVal.arr (xs ++ [specEncodeQueueItem item]) := by
  match item with
  | .file f => simp [serializeQueueItem, specEncodeQueueItem, JVal.append]
  | .directory d cs =>
      have h := serializeItems_eq cs []
      simp [serializeQueueItem, specEncodeQueueItem, JVal.append, h]
  | .album a cs =>
      have h := serializeItems_eq cs []
      simp [serializeQueueItem, specEncodeQueueItem, JVal.append, h]
  | .playlist plId cs =>
      have h := serializeItems_eq cs []
      simp [serializeQueueItem, specEncodeQueueItem, JVal.append, h]

/-- The child loop of the source codec appends the spec-side encodings
of the children, in original order. -/
theorem serializeItems_eq (items : List QueueItem) (acc : List JVal) :
    serializeItems (JVal.arr acc) items =
      JVal.arr (acc ++ specEncodeItems items) := by
  match items with
  | [] => simp [serializeItems, specEncodeItems]
  | c :: cs =>
      have h1 := serializeQueueItem_eq c acc
      have h2 := serializeItems_eq cs (acc ++ [specEncodeQueueItem c])
      simp [serializeItems, specEncodeItems, h1, h2]
end

/-- The spec-side child encoding is an order-preserving map. -/
theorem specEncodeItems_map (items : List QueueItem) :
    specEncodeItems items = items.map specEncodeQueueItem := by
  induction items with
  | nil => rfl
  | cons c cs ih => simp [specEncodeItems, ih]

/-- The element-wise id validation fails as soon as the array holds a
non-integer element. -/
theorem collectIds_err {vs : List JVal} {v : JVal} (hv : v ∈ vs)
    (hint : v.isInt = false) :
    collectIds vs = .error .invalidMethodCall := by
  induction vs with
  | nil => cases hv
  | cons w ws ih =>
      rcases List.mem_cons.mp hv with rfl | hmem
      · simp [collectIds, hint]
      · by_cases hw : w.isInt = true
        · simp [collectIds, hw, ih hmem]
        · simp [collectIds, Bool.of_not_eq_true hw]

/-- A member whose constant lookup gives a non-null value is present. -/
theorem isMember_of_get_ne_null {j : JVal} {k : String}
    (h : j.get k ≠ JVal.null) : j.isMember k = true := by
  cases j with
  | obj kvs =>
      simp only [JVal.isMember]
      cases hfk : findKey kvs k with
      | none => simp [JVal.get, hfk] at h
      | some v => simp [hfk]
  | null => exact absurd rfl h
  | bool b => exact absurd rfl h
  | int n => exact absurd rfl h
  | str s => exact absurd rfl h
  | arr xs => exact absurd rfl h

/-- requireType passes when the key is present with the expected kind. -/
theorem requireType_ok {params : JVal} {key : String} {t : JType}
    (h1 : params.isMember key = true) (h2 : (params.get key).jtype = t) :
    requireType params key t = .ok () := by
  simp [requireType, h1, h2]

/-- Unfolding of the success arm of the try/catch wrapper. -/
theorem finishCall_ok (st : ServerState) (root : JVal)
    (out : ServerState × JVal) :
    finishCall st root (.ok out) = (out.1, successReply root out.2) := by
  rcases out with ⟨st2, result⟩
  rfl

/-- A well-enveloped request naming a registered method is dispatched
to that handler with the extracted params. -/
theorem processRequest_dispatch (st : ServerState) (root : JVal)
    (name : String) (h : Handler)
    (hm : root.isMember ("method") = true)
    (hi : root.isMember ("id") = true)
    (hname : root.get ("method") = JVal.str name)
    (hl : rpcLookup name = some h) :
    processRequest st (some root) =
      finishCall st root (h (extractParams root) st) := by
  simp [processRequest, hm, hi, hname, JVal.asString, hl]

/-- Playlist-entry resolution distributes over list append. -/
theorem resolvePlaylistItems_append (s : Storage)
    (xs ys : List PlaylistItem) :
    resolvePlaylistItems s (xs ++ ys) =
      ((resolvePlaylistItems s xs).1 ++ (resolvePlaylistItems s ys).1,
       (resolvePlaylistItems s xs).2 ++ (resolvePlaylistItems s ys).2) := by
  induction xs with
  | nil => simp [resolvePlaylistItems]
  | cons item rest ih => simp [resolvePlaylistItems, ih]

/-- A playlist entry of unrecognized type adds no child and emits one
LOG line. -/
theorem resolvePlaylistItems_unknown (s : Storage) (bad : PlaylistItem)
    (ys : List PlaylistItem) (h1 : bad.m_type ≠ "file")
    (h2 : bad.m_type ≠ "directory") (h3 : bad.m_type ≠ "album") :
    resolvePlaylistItems s (bad :: ys) =
      ((resolvePlaylistItems s ys).1,
       (("jsonrpc-remote: invalid playlist item: ") ++ bad.m_type)
         :: (resolvePlaylistItems s ys).2) := by
  simp [resolvePlaylistItems, h1, h2, h3]

/-- The album sort really is nondecreasing in track index. -/
theorem sortByTrackIndex_pairwise (files : List LibFile) :
    List.Pairwise (fun f1 f2 => f1.m_trackIndex ≤ f2.m_trackIndex)
      (sortByTrackIndex files) := by
  have htrans : ∀ (a b c : LibFile),
      decide (a.m_trackIndex ≤ b.m_trackIndex) = true →
      decide (b.m_trackIndex ≤ c.m_trackIndex) = true →
      decide (a.m_trackIndex ≤ c.m_trackIndex) = true := by
    intro a b c hab hbc
    simp at hab hbc ⊢
    omega
  have htotal : ∀ (a b : LibFile),
      (decide (a.m_trackIndex ≤ b.m_trackIndex)
        || decide (b.m_trackIndex ≤ a.m_trackIndex)) = true := by
    intro a b
    simp
    omega
  have h := @List.sorted_mergeSort LibFile
      (fun f1 f2 => decide (f1.m_trackIndex ≤ f2.m_trackIndex))
      htrans htotal files
  exact List.Pairwise.imp (fun hab => by simpa using hab) h

/-- The album sort is a permutation of what storage returned. -/
theorem sortByTrackIndex_perm (files : List LibFile) :
    (sortByTrackIndex files).Perm files := by
  unfold sortByTrackIndex
  exact List.mergeSort_perm files _

/-- A successful libraryScan call leaves the response document null. -/
theorem libraryScan_null (p : JVal) (st : ServerState) (out : ServerState × JVal)
    (h : libraryScan p st = Except.ok out) : out.2 = JVal.null := by
  injection h with h2
  exact h2 ▸ rfl

/-- A successful playerQueueRemoveAll call leaves the response document null. -/
theorem playerQueueRemoveAll_null (p : JVal) (st : ServerState) (out : ServerState × JVal)
    (h : playerQueueRemoveAll p st = Except.ok out) : out.2 = JVal.null := by
  injection h with h2
  exact h2 ▸ rfl

/-- A successful playerPlay call leaves the response document null. -/
theorem playerPlay_null (p : JVal) (st : ServerState) (out : ServerState × JVal)
    (h : playerPlay p st = Except.ok out) : out.2 = JVal.null := by
  injection h with h2
  exact h2 ▸ rfl

/-- A successful playerPause call leaves the response document null. -/
theorem playerPause_null (p : JVal) (st : ServerState) (out : ServerState × JVal)
    (h : playerPause p st = Except.ok out) : out.2 = JVal.null := by
  injection h with h2
  exact h2 ▸ rfl

/-- A successful playerStop call leaves the response document null. -/
theorem playerStop_null (p : JVal) (st : ServerState) (out : ServerState × JVal)
    (h : playerStop p st = Except.ok out) : out.2 = JVal.null := by
  injection h with h2
  exact h2 ▸ rfl

/-- A successful playerPrev call leaves the response document null. -/
theorem playerPrev_null (p : JVal) (st : ServerState) (out : ServerState × JVal)
    (h : playerPrev p st = Except.ok out) : out.2 = JVal.null := by
  injection h with h2
  exact h2 ▸ rfl

/-- A successful playerNext call leaves the response document null. -/
theorem playerNext_null (p : JVal) (st : ServerState) (out : ServerState × JVal)
    (h : playerNext p st = Except.ok out) : out.2 = JVal.null := by
  injection h with h2
  exact h2 ▸ rfl

/-- A successful libraryUpdateMetadata call leaves the response document null. -/
theorem libraryUpdateMetadata_null (p : JVal) (st : ServerState) (out : ServerState × JVal)
    (h : libraryUpdateMetadata p st = Except.ok out) : out.2 = JVal.null := by
  unfold libraryUpdateMetadata at h
  repeat' split at h
  all_goals first
    | exact Except.noConfusion h
    | (injection h with h2; exact h2 ▸ rfl)

/-- A successful libraryDeletePlaylist call leaves the response document null. -/
theorem libraryDeletePlaylist_null (p : JVal) (st : ServerState) (out : ServerState × JVal)
    (h : libraryDeletePlaylist p st = Except.ok out) : out.2 = JVal.null := by
  unfold libraryDeletePlaylist at h
  repeat' split at h
  all_goals first
    | exact Except.noConfusion h
    | (injection h with h2; exact h2 ▸ rfl)

/-- A successful libraryDeletePlaylistItem call leaves the response document null. -/
theorem libraryDeletePlaylistItem_null (p : JVal) (st : ServerState) (out : ServerState × JVal)
    (h : libraryDeletePlaylistItem p st = Except.ok out) : out.2 = JVal.null := by
  unfold libraryDeletePlaylistItem at h
  repeat' split at h
  all_goals first
    | exact Except.noConfusion h
    | (injection h with h2; exact h2 ▸ rfl)

/-- A successful playerQueueFile call leaves the response document null. -/
theorem playerQueueFile_null (p : JVal) (st : ServerState) (out : ServerState × JVal)
    (h : playerQueueFile p st = Except.ok out) : out.2 = JVal.null := by
  unfold playerQueueFile at h
  repeat' split at h
  all_goals first
    | exact Except.noConfusion h
    | (injection h with h2; exact h2 ▸ rfl)

/-- A successful playerQueueDirectory call leaves the response document null. -/
theorem playerQueueDirectory_null (p : JVal) (st : ServerState) (out : ServerState × JVal)
    (h : playerQueueDirectory p st = Except.ok out) : out.2 = JVal.null := by
  unfold playerQueueDirectory at h
  simp only [] at h
  repeat' split at h
  all_goals first
    | exact Except.noConfusion h
    | (injection h with h2; exact h2 ▸ rfl)

/-- A successful playerQueueAlbum call leaves the response document null. -/
theorem playerQueueAlbum_null (p : JVal) (st : ServerState) (out : ServerState × JVal)
    (h : playerQueueAlbum p st = Except.ok out) : out.2 = JVal.null := by
  unfold playerQueueAlbum at h
  simp only [] at h
  repeat' split at h
  all_goals first
    | exact Except.noConfusion h
    | (injection h with h2; exact h2 ▸ rfl)

/-- A successful playerQueuePlaylist call leaves the response document null. -/
theorem playerQueuePlaylist_null (p : JVal) (st : ServerState) (out : ServerState × JVal)
    (h : playerQueuePlaylist p st = Except.ok out) : out.2 = JVal.null := by
  unfold playerQueuePlaylist at h
  repeat' split at h
  all_goals first
    | exact Except.noConfusion h
    | (injection h with h2; exact h2 ▸ rfl)

/-- A successful playerQueueRemove call leaves the response document null. -/
theorem playerQueueRemove_null (p : JVal) (st : ServerState) (out : ServerState × JVal)
    (h : playerQueueRemove p st = Except.ok out) : out.2 = JVal.null := by
  unfold playerQueueRemove at h
  repeat' split at h
  all_goals first
    | exact Except.noConfusion h
    | (injection h with h2; exact h2 ▸ rfl)

/-- A successful playerSeek call leaves the response document null. -/
theorem playerSeek_null (p : JVal) (st : ServerState) (out : ServerState × JVal)
    (h : playerSeek p st = Except.ok out) : out.2 = JVal.null := by
  unfold playerSeek at h
  repeat' split at h
  all_goals first
    | exact Except.noConfusion h
    | (injection h with h2; exact h2 ▸ rfl)

/-- A successful playerGoto call leaves the response document null. -/
theorem playerGoto_null (p : JVal) (st : ServerState) (out : ServerState × JVal)
    (h : playerGoto p st = Except.ok out) : out.2 = JVal.null := by
  unfold playerGoto at h
  repeat' split at h
  all_goals first
    | exact Except.noConfusion h
    | (injection h with h2; exact h2 ▸ rfl)

/-- A successful playerSetVolume call leaves the response document null. -/
theorem playerSetVolume_null (p : JVal) (st : ServerState) (out : ServerState × JVal)
    (h : playerSetVolume p st = Except.ok out) : out.2 = JVal.null := by
  unfold playerSetVolume at h
  repeat' split at h
  all_goals first
    | exact Except.noConfusion h
    | (injection h with h2; exact h2 ▸ rfl)

/-- Claim C1: the queue codec emits a node before its children
(pre-order), appends children in original order, and encodes File as
type file plus id, Directory as type directory plus id plus files,
Album as type album plus id plus files, Playlist as type playlist plus
id plus items; in particular a Playlist holding one Directory holding
two Files encodes to a playlist document with one directory child
whose files array has the two file entries in original order. -/
theorem C1_codec_preorder :
    (∀ (item : QueueItem) (xs : List JVal),
        serializeQueueItem (JVal.arr xs) item
          = JVal.arr (xs ++ [specEncodeQueueItem item]))
    ∧ (∀ (items : List QueueItem),
        specEncodeItems items = items.map specEncodeQueueItem)
    ∧ (∀ (f : LibFile), specEncodeQueueItem (QueueItem.file f)
        = JVal.obj [(("type"), JVal.str ("file")), (("id"), JVal.int f.m_id)])
    ∧ (∀ (d : LibDirectory) (cs : List QueueItem),
        specEncodeQueueItem (QueueItem.directory d cs)
          = JVal.obj [(("type"), JVal.str ("directory")), (("id"), JVal.int d.m_id),
                      (("files"), JVal.arr (cs.map specEncodeQueueItem))])
    ∧ (∀ (a : LibAlbum) (cs : List QueueItem),
        specEncodeQueueItem (QueueItem.album a cs)
          = JVal.obj [(("type"), JVal.str ("album")), (("id"), JVal.int a.m_id),
                      (("files"), JVal.arr (cs.map specEncodeQueueItem))])
    ∧ (∀ (plId : Int) (cs : List QueueItem),
        specEncodeQueueItem (QueueItem.playlist plId cs)
          = JVal.obj [(("type"), JVal.str ("playlist")), (("id"), JVal.int plId),
                      (("items"), JVal.arr (cs.map specEncodeQueueItem))])
    ∧ serializeQueueItem (JVal.arr []) exQueueTree
        = JVal.arr [JVal.obj [(("type"), JVal.str ("playlist")), (("id"), JVal.int 20),
            (("items"), JVal.arr [JVal.obj [(("type"), JVal.str ("directory")),
              (("id"), JVal.int 10),
              (("files"), JVal.arr [JVal.obj [(("type"), JVal.str ("file")), (("id"), JVal.int 1)],
                JVal.obj [(("type"), JVal.str ("file")), (("id"), JVal.int 2)]])]])]] := by
  refine ⟨serializeQueueItem_eq, specEncodeItems_map, ?_, ?_, ?_, ?_, ?_⟩
  · intro f
    simp [specEncodeQueueItem]
  · intro d cs
    simp [specEncodeQueueItem, specEncodeItems_map]
  · intro a cs
    simp [specEncodeQueueItem, specEncodeItems_map]
  · intro plId cs
    simp [specEncodeQueueItem, specEncodeItems_map]
  · simp [exQueueTree, serializeQueueItem_eq, specEncodeQueueItem, specEncodeItems,
      mkFile]

/-- Claim C2: once a parsed request has method and id and names a
registered method, any failure raised by the handler produces a
failure envelope with the single reason string invalid method call,
whatever the cause. -/
theorem C2_handler_failure_single_reason (st : ServerState) (root : JVal)
    (name : String) (h : Handler) (e : HandlerErr)
    (hm : root.isMember ("method") = true)
    (hi : root.isMember ("id") = true)
    (hname : root.get ("method") = JVal.str name)
    (hl : rpcLookup name = some h)
    (herr : h (extractParams root) st = .error e) :
    processRequest st (some root)
      = (st, createJsonErrorReply root ("invalid method call"))
    ∧ (createJsonErrorReply root ("invalid method call")).get ("error")
        = JVal.str ("invalid method call") := by
  refine ⟨?_, rfl⟩
  rw [processRequest_dispatch st root name h hm hi hname hl, herr]
  rfl

/-- Witness for C2: a player_seek request without params fails inside
the handler and is answered with the generic reason. -/
theorem C2_witness :
    processRequest exampleState (some c2Root)
      = (exampleState, createJsonErrorReply c2Root ("invalid method call"))
    ∧ (createJsonErrorReply c2Root ("invalid method call")).get ("error")
        = JVal.str ("invalid method call") :=
  C2_handler_failure_single_reason exampleState c2Root ("player_seek")
    playerSeek HandlerErr.invalidMethodCall rfl rfl rfl rfl rfl

/-- Claim C3: a well-formed request whose handler succeeds is answered
with a success envelope carrying protocol tag 2.0, the request id
echoed exactly (any JSON type, objects included), and the handler
result; no error member is present. -/
theorem C3_success_envelope_echoes_id (st : ServerState) (root : JVal)
    (name : String) (h : Handler) (st2 : ServerState) (res : JVal)
    (hm : root.isMember ("method") = true)
    (hi : root.isMember ("id") = true)
    (hname : root.get ("method") = JVal.str name)
    (hl : rpcLookup name = some h)
    (hok : h (extractParams root) st = .ok (st2, res)) :
    processRequest st (some root) = (st2, successReply root res)
    ∧ (successReply root res).get ("id") = root.get ("id")
    ∧ (successReply root res).get ("result") = res
    ∧ (successReply root res).get ("jsonrpc") = JVal.str ("2.0")
    ∧ (successReply root res).isMember ("error") = false := by
  refine ⟨?_, rfl, rfl, rfl, rfl⟩
  rw [processRequest_dispatch st root name h hm hi hname hl, hok]
  rfl

/-- Witness for C3: a player_play request whose id is an object is
echoed verbatim. -/
theorem C3_witness :
    processRequest exampleState (some c3Root)
      = ({ exampleState with ops := exampleState.ops ++ [Op.play] },
         successReply c3Root JVal.null)
    ∧ (successReply c3Root JVal.null).get ("id") = c3Root.get ("id")
    ∧ (successReply c3Root JVal.null).get ("result") = JVal.null
    ∧ (successReply c3Root JVal.null).get ("jsonrpc") = JVal.str ("2.0")
    ∧ (successReply c3Root JVal.null).isMember ("error") = false :=
  C3_success_envelope_echoes_id exampleState c3Root ("player_play") playerPlay
    { exampleState with ops := exampleState.ops ++ [Op.play] } JVal.null
    rfl rfl rfl rfl rfl

/-- Claim C4: a player_queue_remove request whose index parameter is an
array holding a non-integer element is answered with reason invalid
method call and the echoed id, and the controller remove operation is
never invoked — the world state is untouched. -/
theorem C4_queue_remove_bad_index (st : ServerState) (root : JVal)
    (elems : List JVal) (v : JVal)
    (hm : root.isMember ("method") = true)
    (hi : root.isMember ("id") = true)
    (hname : root.get ("method") = JVal.str ("player_queue_remove"))
    (hidx : (extractParams root).get ("index") = JVal.arr elems)
    (hv : v ∈ elems) (hint : v.isInt = false) :
    processRequest st (some root)
      = (st, createJsonErrorReply root ("invalid method call"))
    ∧ (createJsonErrorReply root ("invalid method call")).get ("id")
        = root.get ("id")
    ∧ (processRequest st (some root)).1.ops = st.ops := by
  have hmem : (extractParams root).isMember ("index") = true :=
    isMember_of_get_ne_null (by rw [hidx]; exact fun hc => JVal.noConfusion hc)
  have hreq : requireType (extractParams root) ("index") JType.arrayValue
      = .ok () := requireType_ok hmem (by rw [hidx]; rfl)
  have hh : playerQueueRemove (extractParams root) st
      = .error .invalidMethodCall := by
    simp only [playerQueueRemove, hreq, hidx, JVal.arrItems,
      collectIds_err hv hint]
  have hd := processRequest_dispatch st root ("player_queue_remove")
    playerQueueRemove hm hi hname rfl
  rw [hh] at hd
  refine ⟨?_, ?_, ?_⟩
  · rw [hd]
    rfl
  · simp [createJsonErrorReply, JVal.get, findKey, hi]
  · rw [hd]
    rfl

/-- Witness for C4: the spec scenario, index array with the string a
inside. -/
theorem C4_witness :
    processRequest exampleState (some c4Root)
      = (exampleState, createJsonErrorReply c4Root ("invalid method call"))
    ∧ (createJsonErrorReply c4Root ("invalid method call")).get ("id")
        = c4Root.get ("id")
    ∧ (processRequest exampleState (some c4Root)).1.ops = exampleState.ops :=
  C4_queue_remove_bad_index exampleState c4Root [JVal.int 0, JVal.str ("a")]
    (JVal.str ("a")) rfl rfl rfl rfl (List.Mem.tail _ (List.Mem.head _)) rfl

/-- Claim C5: an inbound payload that does not decode as a document is
answered with reason invalid request and id null (the root document
keeps its initial null value, so no id is echoed). -/
theorem C5_unparsable_payload_reply (st : ServerState) :
    processRequest st none
      = (st, createJsonErrorReply JVal.null ("invalid request"))
    ∧ (createJsonErrorReply JVal.null ("invalid request")).get ("error")
        = JVal.str ("invalid request")
    ∧ (createJsonErrorReply JVal.null ("invalid request")).get ("id")
        = JVal.null :=
  ⟨rfl, rfl, rfl⟩

/-- Claim C6: a parsed document missing method or id is answered with
reason method/id not found, the id echoed from the document when
present and null otherwise. -/
theorem C6_missing_method_or_id (st : ServerState) (root : JVal)
    (h : (root.isMember ("method") && root.isMember ("id")) = false) :
    processRequest st (some root)
      = (st, createJsonErrorReply root ("method/id not found"))
    ∧ (createJsonErrorReply root ("method/id not found")).get ("error")
        = JVal.str ("method/id not found")
    ∧ (createJsonErrorReply root ("method/id not found")).get ("id")
        = (if root.isMember ("id") then root.get ("id") else JVal.null) := by
  refine ⟨?_, rfl, rfl⟩
  simp [processRequest, h]

/-- Witness for C6: a document with an id but no method is answered
with the id echoed. -/
theorem C6_witness :
    processRequest exampleState (some c6Root)
      = (exampleState, createJsonErrorReply c6Root ("method/id not found"))
    ∧ (createJsonErrorReply c6Root ("method/id not found")).get ("error")
        = JVal.str ("method/id not found")
    ∧ (createJsonErrorReply c6Root ("method/id not found")).get ("id")
        = (if c6Root.isMember ("id") then c6Root.get ("id") else JVal.null) :=
  C6_missing_method_or_id exampleState c6Root rfl

/-- Counterexample for C7: a request with method and id and no params
key makes the processor hand the handler the null document, which is
not an empty object — `Json::Value params;` default-constructs to
null, and the empty-object reading of the spec fails at this input. -/
theorem C7_counterexample :
    extractParams c7Root ≠ JVal.obj [] ∧ extractParams c7Root = JVal.null :=
  ⟨fun hEq => JVal.noConfusion hEq, rfl⟩

/-- Claim C7 as amended: when the params key is absent the handler is
invoked with the JSON null document (not an empty object); null and
the empty object are indistinguishable under the required-field checks
every handler performs. -/
theorem C7_missing_params_null_document (st : ServerState) (root : JVal)
    (name : String) (h : Handler)
    (hm : root.isMember ("method") = true)
    (hi : root.isMember ("id") = true)
    (hname : root.get ("method") = JVal.str name)
    (hl : rpcLookup name = some h)
    (hnp : root.isMember ("params") = false) :
    extractParams root = JVal.null
    ∧ processRequest st (some root) = finishCall st root (h JVal.null st)
    ∧ (∀ (key : String) (t : JType),
        requireType JVal.null key t = requireType (JVal.obj []) key t) := by
  have hep : extractParams root = JVal.null := by simp [extractParams, hnp]
  refine ⟨hep, ?_, fun key t => rfl⟩
  rw [processRequest_dispatch st root name h hm hi hname hl, hep]

/-- Witness for the amended C7: player_play without params runs on the
null document. -/
theorem C7_witness :
    extractParams c7Root = JVal.null
    ∧ processRequest exampleState (some c7Root)
        = finishCall exampleState c7Root (playerPlay JVal.null exampleState)
    ∧ (∀ (key : String) (t : JType),
        requireType JVal.null key t = requireType (JVal.obj []) key t) :=
  C7_missing_params_null_document exampleState c7Root ("player_play")
    playerPlay rfl rfl rfl rfl rfl

/-- Claim C8: during player_queue_playlist on an existing playlist, an
entry whose type is none of file, directory or album is logged and
skipped: the surrounding entries still resolve, the playlist is queued
on the controller, and the call succeeds. -/
theorem C8_playlist_unknown_entry_skipped (st : ServerState) (root : JVal)
    (n : Int) (pl : LibPlaylist) (rest : List LibPlaylist)
    (xs ys : List PlaylistItem) (bad : PlaylistItem)
    (hm : root.isMember ("method") = true)
    (hi : root.isMember ("id") = true)
    (hname : root.get ("method") = JVal.str ("player_queue_playlist"))
    (hid : (extractParams root).get ("id") = JVal.int n)
    (hpl : st.storage.getPlaylists [n] = pl :: rest)
    (hitems : pl.m_items = xs ++ bad :: ys)
    (h1 : bad.m_type ≠ "file") (h2 : bad.m_type ≠ "directory")
    (h3 : bad.m_type ≠ "album") :
    processRequest st (some root) =
      ({ st with
         ops := st.ops ++ [Op.queue (QueueItem.playlist pl.m_id
           ((resolvePlaylistItems st.storage xs).1
             ++ (resolvePlaylistItems st.storage ys).1))],
         logs := st.logs ++ ((resolvePlaylistItems st.storage xs).2
           ++ ((("jsonrpc-remote: invalid playlist item: ") ++ bad.m_type)
                :: (resolvePlaylistItems st.storage ys).2)) },
       successReply root JVal.null) := by
  have hmemk : (extractParams root).isMember ("id") = true :=
    isMember_of_get_ne_null (by rw [hid]; exact fun hc => JVal.noConfusion hc)
  have hreq : requireType (extractParams root) ("id") JType.intValue = .ok () :=
    requireType_ok hmemk (by rw [hid]; rfl)
  have hres : resolvePlaylistItems st.storage pl.m_items =
      ((resolvePlaylistItems st.storage xs).1
         ++ (resolvePlaylistItems st.storage ys).1,
       (resolvePlaylistItems st.storage xs).2
         ++ ((("jsonrpc-remote: invalid playlist item: ") ++ bad.m_type)
              :: (resolvePlaylistItems st.storage ys).2)) := by
    rw [hitems, resolvePlaylistItems_append,
      resolvePlaylistItems_unknown st.storage bad ys h1 h2 h3]
  rw [processRequest_dispatch st root ("player_queue_playlist")
    playerQueuePlaylist hm hi hname rfl]
  simp only [playerQueuePlaylist, hreq, hid, JVal.asInt, hpl, hres,
    finishCall_ok]

/-- Witness for C8: a stored playlist with entries file, stream, file
resolves to both files, logs the stream entry and succeeds. -/
theorem C8_witness :
    processRequest c8State (some c8Root) =
      ({ c8State with
         ops := c8State.ops ++ [Op.queue (QueueItem.playlist c8Playlist.m_id
           ((resolvePlaylistItems c8State.storage [⟨1, ("file"), 1⟩]).1
             ++ (resolvePlaylistItems c8State.storage [⟨3, ("file"), 2⟩]).1))],
         logs := c8State.logs
           ++ ((resolvePlaylistItems c8State.storage [⟨1, ("file"), 1⟩]).2
           ++ ((("jsonrpc-remote: invalid playlist item: ")
                  ++ PlaylistItem.m_type ⟨2, ("stream"), 9⟩)
                :: (resolvePlaylistItems c8State.storage [⟨3, ("file"), 2⟩]).2)) },
       successReply c8Root JVal.null) :=
  C8_playlist_unknown_entry_skipped c8State c8Root 5 c8Playlist []
    [⟨1, ("file"), 1⟩] [⟨3, ("file"), 2⟩] ⟨2, ("stream"), 9⟩
    rfl rfl rfl rfl rfl rfl (by decide) (by decide) (by decide)

/-- Claim C9: player_queue_album on an existing album queues an Album
item whose files are in nondecreasing track-index order — a sorted
permutation of whatever storage returned — and the call succeeds. -/
theorem C9_queue_album_sorted (st : ServerState) (root : JVal)
    (n : Int) (alb : LibAlbum) (rest : List LibAlbum)
    (hm : root.isMember ("method") = true)
    (hi : root.isMember ("id") = true)
    (hname : root.get ("method") = JVal.str ("player_queue_album"))
    (hid : (extractParams root).get ("id") = JVal.int n)
    (halb : st.storage.getAlbums [n] = alb :: rest) :
    processRequest st (some root) =
      ({ st with ops := st.ops ++ [Op.queue (QueueItem.album alb
           (filesToItems (queuedAlbumFiles st.storage n)))] },
       successReply root JVal.null)
    ∧ List.Pairwise (fun f1 f2 => f1.m_trackIndex ≤ f2.m_trackIndex)
        (queuedAlbumFiles st.storage n)
    ∧ (queuedAlbumFiles st.storage n).Perm
        (if (st.storage.getFileIdsOfAlbum n).isEmpty then []
         else st.storage.getFiles (st.storage.getFileIdsOfAlbum n)) := by
  have hmemk : (extractParams root).isMember ("id") = true :=
    isMember_of_get_ne_null (by rw [hid]; exact fun hc => JVal.noConfusion hc)
  have hreq : requireType (extractParams root) ("id") JType.intValue = .ok () :=
    requireType_ok hmemk (by rw [hid]; rfl)
  refine ⟨?_, ?_, ?_⟩
  · rw [processRequest_dispatch st root ("player_queue_album")
      playerQueueAlbum hm hi hname rfl]
    simp only [playerQueueAlbum, hreq, hid, JVal.asInt, halb, finishCall_ok]
    by_cases he : (st.storage.getFileIdsOfAlbum n).isEmpty
    · simp [queuedAlbumFiles, he, filesToItems]
    · simp [queuedAlbumFiles, he]
  · unfold queuedAlbumFiles
    by_cases he : (st.storage.getFileIdsOfAlbum n).isEmpty
    · simp [he]
    · simp [he, sortByTrackIndex_pairwise]
  · unfold queuedAlbumFiles
    by_cases he : (st.storage.getFileIdsOfAlbum n).isEmpty
    · simp [he]
    · simp only [he, if_neg]
      simp [sortByTrackIndex_perm]

/-- Witness for C9: storage returns the album files with track indices
5 then 2; the queued album holds them sorted 2 then 5. -/
theorem C9_witness :
    (processRequest c9State (some c9Root) =
      ({ c9State with ops := c9State.ops ++ [Op.queue (QueueItem.album c9Album
           (filesToItems (queuedAlbumFiles c9State.storage 7)))] },
       successReply c9Root JVal.null)
    ∧ List.Pairwise (fun f1 f2 => f1.m_trackIndex ≤ f2.m_trackIndex)
        (queuedAlbumFiles c9State.storage 7)
    ∧ (queuedAlbumFiles c9State.storage 7).Perm
        (if (c9State.storage.getFileIdsOfAlbum 7).isEmpty then []
         else c9State.storage.getFiles (c9State.storage.getFileIdsOfAlbum 7)))
    ∧ queuedAlbumFiles c9State.storage 7 = [c9FileB, c9FileA] :=
  ⟨C9_queue_album_sorted c9State c9Root 7 c9Album [] rfl rfl rfl rfl rfl,
   by simp [queuedAlbumFiles, c9State, c9Storage, initialState, emptyStorage,
     sortByTrackIndex, c9FileA, c9FileB, mkFile, List.mergeSort]⟩

/-- Claim C10: every registered method that writes nothing into its
response document answers a successful call with a success envelope
whose result member is exactly null. -/
theorem C10_void_handlers_null_result (name : String) (h : Handler)
    (st : ServerState) (root : JVal) (out : ServerState × JVal)
    (hmem : name ∈ [("library_scan"), ("library_update_metadata"),
      ("library_delete_playlist"), ("library_delete_playlist_item"),
      ("player_queue_file"), ("player_queue_directory"),
      ("player_queue_album"), ("player_queue_playlist"),
      ("player_queue_remove"), ("player_queue_remove_all"),
      ("player_play"), ("player_pause"), ("player_stop"), ("player_seek"),
      ("player_prev"), ("player_next"), ("player_goto"),
      ("player_set_volume")])
    (hl : rpcLookup name = some h)
    (hm : root.isMember ("method") = true)
    (hi : root.isMember ("id") = true)
    (hname : root.get ("method") = JVal.str name)
    (hok : h (extractParams root) st = .ok out) :
    out.2 = JVal.null
    ∧ processRequest st (some root) = (out.1, successReply root JVal.null)
    ∧ (successReply root JVal.null).get ("result") = JVal.null := by
  have hnull : out.2 = JVal.null := by
    fin_cases hmem <;>
      (injection hl with hh
       subst hh
       first
         | exact libraryScan_null _ _ _ hok
         | exact libraryUpdateMetadata_null _ _ _ hok
         | exact libraryDeletePlaylist_null _ _ _ hok
         | exact libraryDeletePlaylistItem_null _ _ _ hok
         | exact playerQueueFile_null _ _ _ hok
         | exact playerQueueDirectory_null _ _ _ hok
         | exact playerQueueAlbum_null _ _ _ hok
         | exact playerQueuePlaylist_null _ _ _ hok
         | exact playerQueueRemove_null _ _ _ hok
         | exact playerQueueRemoveAll_null _ _ _ hok
         | exact playerPlay_null _ _ _ hok
         | exact playerPause_null _ _ _ hok
         | exact playerStop_null _ _ _ hok
         | exact playerSeek_null _ _ _ hok
         | exact playerPrev_null _ _ _ hok
         | exact playerNext_null _ _ _ hok
         | exact playerGoto_null _ _ _ hok
         | exact playerSetVolume_null _ _ _ hok)
  refine ⟨hnull, ?_, rfl⟩
  rw [processRequest_dispatch st root name h hm hi hname hl, hok,
    finishCall_ok, hnull]

/-- Witness for C10: a successful player_stop call is answered with a
null result. -/
theorem C10_witness :
    (({ exampleState with ops := exampleState.ops ++ [Op.stop] },
       JVal.null) : ServerState × JVal).2 = JVal.null
    ∧ processRequest exampleState (some c10Root)
        = ({ exampleState with ops := exampleState.ops ++ [Op.stop] },
           successReply c10Root JVal.null)
    ∧ (successReply c10Root JVal.null).get ("result") = JVal.null :=
  C10_void_handlers_null_result ("player_stop") playerStop exampleState
    c10Root ({ exampleState with ops := exampleState.ops ++ [Op.stop] },
      JVal.null)
    (by decide) rfl rfl rfl rfl rfl
